import Mathlib

/-!
Verification development for `src/etf_screener_web.py` (ETF Screener & RS Ranking).

The source is a single Python/pandas script.  We embed the computational parts
shallowly in Lean:

* closing prices are exact rationals (`ℚ`); the pandas `NaN` missing sentinel is
  modelled with `Option` (`none` = missing);
* a pandas `DataFrame` of closes is a list of rows (`List (List ℚ)`), one row per
  date, one entry per instrument, in the order of `etf_symbols`;
* the ranking table handed to `apply_filters` / `sort_values` is modelled by a
  `Table` of `Row`s with heterogeneous `Cell`s (number / boolean / string / NaN),
  each row carrying its positional label `idx` (the date label of the pandas
  index);
* pandas operations that raise (`KeyError` on a missing column, `ValueError` on
  comparing non-identically-labelled Series) are modelled with `Option`-returning
  helpers; the source catches every such exception inside `apply_filters` and
  skips the offending criterion, which the model mirrors.
-/

/-- The ETF symbol universe, from module scope of `etf_screener_web.py` (lines 8-19). -/
def etf_symbols : List String :=
  ["XLK", "SOXX", "IGV", "CIBR", "AIQ", "IYZ",
   "XLF", "KRE", "IAI",
   "XLV", "IBB", "IHI",
   "XLE", "XOP", "TAN",
   "XLY", "FDN",
   "XLB", "LIT",
   "XLU",
   "EFA", "VEA",
   "VWO", "EEM",
   "EWJ", "MCHI", "INDA", "EWY", "EWT", "EWZ"]

/-- `LOOKBACK_PERIODS = {"12M": 252, "3M": 63, "1M": 20, "1W": 5}` (line 22). -/
def LOOKBACK_PERIODS : List (String × ℕ) :=
  [("12M", 252), ("3M", 63), ("1M", 20), ("1W", 5)]

/-- The window labels, i.e. the keys of `LOOKBACK_PERIODS`. -/
def lookbackLabels : List String := LOOKBACK_PERIODS.map Prod.fst

/-- `series.rolling(window := w, min_periods := m).mean()` on a single close
series, as used on each column by `calculate_metrics` (lines 60-61).  Position
`i` holds `none` (NaN) when fewer than `m` observations are available there,
otherwise the mean of the at most `w` trailing closes (a partial window when
`i + 1 < w`). -/
def rollingMean (w m : ℕ) (xs : List ℚ) : List (Option ℚ) :=
  (List.range xs.length).map (fun i =>
    if m ≤ ((xs.take (i + 1)).drop (i + 1 - w)).length then
      some (((xs.take (i + 1)).drop (i + 1 - w)).sum /
        (((xs.take (i + 1)).drop (i + 1 - w)).length : ℚ))
    else none)

/-- `close_prices.rolling(window := 200, min_periods := 1).mean()` for one
instrument's close series (line 60). -/
def ma200 (xs : List ℚ) : List (Option ℚ) := rollingMean 200 1 xs

/-- `close_prices.rolling(window := 50, min_periods := 1).mean()` for one
instrument's close series (line 61). -/
def ma50 (xs : List ℚ) : List (Option ℚ) := rollingMean 50 1 xs

/-- `(valid_data / valid_data.iloc[0] - 1) * 100` (line 68): divide every row of
the window elementwise by the window's first row, subtract 1, times 100. -/
def relSeries (rows : List (List ℚ)) : List (List ℚ) :=
  match rows with
  | [] => []
  | r0 :: _ =>
      rows.map (fun r => (r.zip r0).map (fun p => (p.1 / p.2 - 1) * 100))

/-- `.mean(axis := 1)` on one row: the arithmetic mean across instruments (line 69). -/
def rowMean (r : List ℚ) : ℚ := r.sum / r.length

/-- The RS "rating" computed by `calculate_metrics` for one lookback window of
`days` periods (lines 65-72): when the aligned close table has at least `days`
rows, take the trailing `days` rows (`close_prices.iloc[-days:]`), form the
relative-performance series against the window's first row, and average each
row across instruments, giving one value per date of the window; otherwise the
source stores `pd.Series(index := data.index, dtype := 'float64')`, an all-NaN
series, modelled as `none` (everything missing). -/
def rsRatingWindow (days : ℕ) (rows : List (List ℚ)) : Option (List ℚ) :=
  if days ≤ rows.length then
    some ((relSeries (rows.drop (rows.length - days))).map rowMean)
  else
    none

/-- One cell of the ranking table: a float, a boolean, a string, or NaN
(pandas's missing sentinel). -/
inductive Cell where
  | num : ℚ → Cell
  | bool : Bool → Cell
  | str : String → Cell
  | nan : Cell
deriving DecidableEq

/-- One row of the ranking `DataFrame`: its positional index label `idx` (the
pandas index entry, a date position here) and its cells keyed by column name. -/
structure Row where
  idx : ℕ
  cells : List (String × Cell)
deriving DecidableEq

/-- A pandas `DataFrame`: column names plus rows. -/
structure Table where
  cols : List String
  rows : List Row
deriving DecidableEq

/-- Cell access within a row; defaults to NaN (by the frame invariant every row
has an entry for every column, so the default is never reached on well-formed
tables). -/
def getCell (r : Row) (c : String) : Cell :=
  (List.lookup c r.cells).getD Cell.nan

/-- `fillna(False).astype(bool)` applied to one cell of an `MA_` column
(line 147): NaN is replaced by `False`; a float becomes its Python truthiness
(zero ↦ `False`, anything else ↦ `True`); a boolean stays; a string becomes
its truthiness. -/
def maToBool : Cell → Cell
  | Cell.nan => Cell.bool false
  | Cell.num q => Cell.bool (decide (q ≠ 0))
  | Cell.bool b => Cell.bool b
  | Cell.str s => Cell.bool (s != "")

/-- Lines 146-147 of `main`: for `ma_col in ['MA_200', 'MA_50']`, replace the
column by `fillna(False).astype(bool)` of itself. -/
def prepRanking (t : Table) : Table :=
  Table.mk t.cols
    (t.rows.map (fun r =>
      Row.mk r.idx
        (r.cells.map (fun p =>
          if p.1 == ("MA_200") || p.1 == ("MA_50") then (p.1, maToBool p.2)
          else p))))

/-- A filter's value in the `filters` dict of `main` (lines 150-154): a
checkbox (`Bool`) or a selectbox choice (`String`). -/
inductive FVal where
  | fb : Bool → FVal
  | fs : String → FVal
deriving DecidableEq

/-- Python truthiness of a filter value, for the `if value:` guard (line 95). -/
def FVal.truthy : FVal → Bool
  | FVal.fb b => b
  | FVal.fs s => s != ""

/-- Pandas elementwise `==` of a cell against a scalar filter value (line 99):
never raises; comparisons across incompatible kinds are `False`; `NaN` compares
unequal to everything; a float cell equals a boolean scalar via its 0/1 value. -/
def cellEqFVal : Cell → FVal → Bool
  | Cell.str s, FVal.fs v => s == v
  | Cell.bool b, FVal.fb v => b == v
  | Cell.num q, FVal.fb v => decide (q = (if v then 1 else 0))
  | _, _ => false

/-- Pandas elementwise `>` between two cells (line 102): numbers and booleans
compare through their numeric value (`True` = 1, `False` = 0), any comparison
involving NaN is `False`, and comparing a string with a number raises
`TypeError`, modelled as `none`. -/
def cellGT : Cell → Cell → Option Bool
  | Cell.str _, _ => none
  | _, Cell.str _ => none
  | Cell.nan, _ => some false
  | _, Cell.nan => some false
  | Cell.num a, Cell.num b => some (decide (b < a))
  | Cell.num a, Cell.bool b => some (decide ((if b then (1 : ℚ) else 0) < a))
  | Cell.bool a, Cell.num b => some (decide (b < (if a then (1 : ℚ) else 0)))
  | Cell.bool a, Cell.bool b =>
      some (decide ((if b then (1 : ℚ) else 0) < (if a then (1 : ℚ) else 0)))

/-- Pandas elementwise `<` (line 104), by swapping the arguments of `>`. -/
def cellLT (a b : Cell) : Option Bool := cellGT b a

/-- `required_columns` of `apply_filters` (line 86). -/
def requiredColumns : List String :=
  ["Above 200 MA", "Above 50 MA", "12M", "3M", "1M", "1W"]

/-- `filtered_data[col] cmp etf_ranking["12M"]` (lines 102 and 104): raises
`KeyError` (`none`) when `col` is not a column of the current frame, raises
`ValueError` (`none`) when the two Series are not identically labelled (pandas
refuses to compare Series whose indexes differ), raises `TypeError` (`none`)
when a cell comparison is untyped; otherwise the elementwise boolean mask. -/
def seriesCmp (cmp : Cell → Cell → Option Bool) (cur orig : Table)
    (col : String) : Option (List Bool) :=
  if cur.cols.contains col then
    if cur.rows.map Row.idx == orig.rows.map Row.idx then
      (cur.rows.zip orig.rows).mapM
        (fun p => cmp (getCell p.1 col) (getCell p.2 ("12M")))
    else none
  else none

/-- Keep the rows of `cur` whose mask entry is `true`
(`filtered_data = filtered_data[condition]`, line 107). -/
def maskRows (cur : Table) (mask : List Bool) : Table :=
  Table.mk cur.cols (((cur.rows.zip mask).filter (fun p => p.2)).map Prod.fst)

/-- One iteration of the `for col, (operator, value) in filters.items()` loop of
`apply_filters` (lines 94-110).  `orig` is the `etf_ranking` argument (whose
`12M` column is the right-hand side of `>` / `<`), `cur` the accumulated
`filtered_data`.  The whole body is wrapped in `try/except` in the source: any
raised exception is reported and the criterion skipped (`continue`), leaving
`cur` unchanged. -/
def applyCriterion (orig cur : Table) (f : String × String × FVal) : Table :=
  if f.2.2.truthy then
    if f.1 == ("EMA Trend") then
      if f.2.1 == ("==") then
        if cur.cols.contains f.1 then
          Table.mk cur.cols
            (cur.rows.filter (fun r => cellEqFVal (getCell r f.1) f.2.2))
        else cur
      else cur
    else
      if f.2.1 == (">") then
        match seriesCmp cellGT cur orig f.1 with
        | some mask => maskRows cur mask
        | none => cur
      else if f.2.1 == ("<") then
        match seriesCmp cellLT cur orig f.1 with
        | some mask => maskRows cur mask
        | none => cur
      else
        cur
  else
    cur

/-- `apply_filters(etf_ranking, filters)` (lines 79-112).  An empty frame (any
axis of length zero) yields a fresh `pd.DataFrame()`; a frame missing one of
the `required_columns` is returned unchanged after an error message; otherwise
the criteria are folded over `filtered_data`, each against the original
frame's `12M` column. -/
def apply_filters (etf_ranking : Table) (filters : List (String × String × FVal)) :
    Table :=
  if etf_ranking.rows.isEmpty || etf_ranking.cols.isEmpty then Table.mk [] []
  else if requiredColumns.all (fun c => etf_ranking.cols.contains c) then
    filters.foldl (applyCriterion etf_ranking) etf_ranking
  else etf_ranking

/-- The sort key of `sort_values(by := "12M", ...)` (line 163) of one row: the
numeric value of its `12M` cell (booleans count as 0/1), or `none` for NaN. -/
def key12M (r : Row) : Option ℚ :=
  match getCell r ("12M") with
  | Cell.num q => some q
  | Cell.bool b => some (if b then 1 else 0)
  | _ => none

/-- Descending comparison on rows by their `12M` key (only ever used between
rows whose key is present). -/
def rowGe (a b : Row) : Prop := (key12M b).getD 0 ≤ (key12M a).getD 0

instance : DecidableRel rowGe :=
  fun a b => inferInstanceAs (Decidable ((key12M b).getD 0 ≤ (key12M a).getD 0))

instance : IsTotal Row rowGe := ⟨fun _ _ => le_total _ _⟩

instance : IsTrans Row rowGe := ⟨fun _ _ _ h1 h2 => le_trans h2 h1⟩

/-- `etf_ranking.sort_values(by := "12M", ascending := False)` (line 163):
rows with a present `12M` key sorted in non-increasing key order, rows whose
key is NaN placed last (`na_position` defaults to `'last'`).  Pandas sorts
descending by reversing the frame, arg-sorting ascending, and reversing the
result, which with a stable underlying sort keeps tied rows in input order;
the model realizes that tie behaviour with a stable insertion sort. -/
def sortBy12MDesc (t : Table) : Table :=
  Table.mk t.cols
    (List.insertionSort rowGe (t.rows.filter (fun r => (key12M r).isSome))
      ++ t.rows.filter (fun r => !(key12M r).isSome))

/-- Spec-side (claim C2 wording): the number of values of `l` strictly below `v`. -/
def countLt (v : ℚ) (l : List ℚ) : ℕ := (l.filter (fun x => decide (x < v))).length

/-- Spec-side (claim C2 wording): the number of values of `l` equal to `v`. -/
def countEq (v : ℚ) (l : List ℚ) : ℕ := (l.filter (fun x => decide (x = v))).length

/-- Spec-side (claim C2 wording): the 1-based fractional (average) rank of `v`
among the values of `l`, ascending, tied values receiving the mean of the ranks
they would occupy. -/
def fracRank (v : ℚ) (l : List ℚ) : ℚ :=
  countLt v l + (countEq v l + 1) / 2

/-- Spec-side (claim C2 wording): rounding to 2 decimal places. -/
def round2 (q : ℚ) : ℚ := (round (q * 100) : ℤ) / 100

/-- Spec-side definition, written from claim C2's words for comparison with the
source's `rsRatingWindow`: given the non-missing performance values of the
window's population, each instrument's rating is
`(rank / n) × 99` rounded to 2 decimal places, `rank` its fractional rank. -/
def rsRatingSpecC2 (perfs : List ℚ) : List ℚ :=
  perfs.map (fun v => round2 (fracRank v perfs / perfs.length * 99))

/-- A one-row table carrying exactly the `required_columns` of `apply_filters`,
used to exercise the criterion loop on concrete inputs. -/
def fullRankingSample : Table :=
  Table.mk requiredColumns
    [Row.mk 0 [(("Above 200 MA"), Cell.bool true), (("Above 50 MA"), Cell.bool true),
      (("12M"), Cell.num 7), (("3M"), Cell.num 3), (("1M"), Cell.num 2),
      (("1W"), Cell.num 1)]]

/-- A two-row table with the `required_columns`, one row per date label. -/
def fullRankingSample2 : Table :=
  Table.mk requiredColumns
    [Row.mk 0 [(("Above 200 MA"), Cell.bool true), (("Above 50 MA"), Cell.bool false),
      (("12M"), Cell.num 4), (("3M"), Cell.num 1), (("1M"), Cell.num 1),
      (("1W"), Cell.num 1)],
     Row.mk 1 [(("Above 200 MA"), Cell.bool false), (("Above 50 MA"), Cell.bool true),
      (("12M"), Cell.num 9), (("3M"), Cell.num 2), (("1M"), Cell.num 2),
      (("1W"), Cell.num 2)]]

/-- A one-row table using the column names of main's intended ranking
selection (`MA_200`, `MA_50` and the four window labels — the names the source
text assigns at lines 60-61 and 142-154), none of which is a
`required_columns` name. -/
def mainRankingSample : Table :=
  Table.mk [("MA_200"), ("MA_50"), ("12M"), ("3M"), ("1M"), ("1W")]
    [Row.mk 0 [(("MA_200"), Cell.num 412), (("MA_50"), Cell.num 430),
      (("12M"), Cell.num 12), (("3M"), Cell.num 5), (("1M"), Cell.num 2),
      (("1W"), Cell.num 1)]]

/-- A one-row ranking table whose `MA_200` value is missing (NaN) and whose
`MA_50` value is a moving-average price, exercising the boolean conversion of
lines 146-147. -/
def rankingWithMissing : Table :=
  Table.mk [("MA_200"), ("MA_50"), ("12M"), ("3M"), ("1M"), ("1W")]
    [Row.mk 0 [(("MA_200"), Cell.nan), (("MA_50"), Cell.num 430),
      (("12M"), Cell.nan), (("3M"), Cell.num 5), (("1M"), Cell.num 2),
      (("1W"), Cell.num 1)]]

/-- A table whose two rows tie on the `12M` sort key, listed with the larger
date label first. -/
def tiedSample : Table :=
  Table.mk [("12M")]
    [Row.mk 5 [(("12M"), Cell.num 1)], Row.mk 3 [(("12M"), Cell.num 1)]]

theorem zip_self_eq_map {α : Type} (l : List α) :
    l.zip l = l.map (fun x => (x, x)) := by
  induction l with
  | nil => rfl
  | cons a as ih => simpa [List.zip_cons_cons] using ih

theorem mul_length_lt_sum (l : List ℚ) (a : ℚ) (hne : l ≠ [])
    (h : ∀ x ∈ l, a < x) : a * l.length < l.sum := by
  induction l with
  | nil => exact absurd rfl hne
  | cons x xs ih =>
      rcases xs with _ | ⟨y, ys⟩
      · simpa using h x (by simp)
      · have hih := ih (by simp) (fun z hz => h z (by simp [hz]))
        have hx := h x (by simp)
        simp only [List.sum_cons, List.length_cons] at hih ⊢
        push_cast at hih ⊢
        linarith

theorem rowMean_singleton (v : ℚ) : rowMean [v] = v := by
  simp [rowMean]

theorem applyCriterion_unknown_col (orig cur : Table) (f : String × String × FVal)
    (h : cur.cols.contains f.1 = false) : applyCriterion orig cur f = cur := by
  unfold applyCriterion seriesCmp
  simp only [h]
  split
  · split
    · split
      · simp [h]
      · rfl
    · split
      · simp
      · split
        · simp
        · rfl
  · rfl

theorem foldl_applyCriterion_unknown (t : Table)
    (fs : List (String × String × FVal))
    (h : ∀ f ∈ fs, t.cols.contains f.1 = false) :
    fs.foldl (applyCriterion t) t = t := by
  induction fs with
  | nil => rfl
  | cons f rest ih =>
      rw [List.foldl_cons, applyCriterion_unknown_col t t f (h f (by simp))]
      exact ih (fun g hg => h g (by simp [hg]))

/-- Claim C4, counterexample: for the 1W window (`periods` = 5) an instrument
universe with exactly 5 observations — fewer than `periods + 1`, for which the
claim demands a missing value — gets a fully computed series, not the missing
sentinel. -/
theorem c4_counterexample :
    rsRatingWindow 5 [[1], [1], [1], [1], [1]] = some [0, 0, 0, 0, 0] ∧
      (5 : ℕ) < 5 + 1 := by
  constructor
  · norm_num [rsRatingWindow, relSeries, rowMean]
  · decide

/-- Claim C4, amended: for every configured window, the per-window series is
missing (the all-NaN series, `none`) exactly when the aligned close table has
fewer than `periods` observations — not `periods + 1` as claimed; moreover the
threshold is a property of the whole table, not of a single instrument. -/
theorem c4_missing_iff_fewer_than_periods (label : String) (days : ℕ)
    (rows : List (List ℚ)) (h : (label, days) ∈ LOOKBACK_PERIODS) :
    rsRatingWindow days rows = none ↔ rows.length < days := by
  unfold rsRatingWindow
  split
  · simp only [reduceCtorEq, false_iff]
    omega
  · simp only [true_iff]
    omega

/-- Witness for `c4_missing_iff_fewer_than_periods` at the 1M window and a
one-observation table. -/
theorem c4_witness :
    rsRatingWindow 20 [[1]] = none ↔ ([[(1 : ℚ)]] : List (List ℚ)).length < 20 :=
  c4_missing_iff_fewer_than_periods ("1M") 20 [[1]] (by decide)

/-- Claim C5, counterexample: the 200-period moving average of a single-element
close series is `[some 10]` — index 0 is far below `200 - 1`, where the claim
demands a missing value, yet a partial-window average (of one observation) is
produced, because the source passes `min_periods = 1`. -/
theorem c5_counterexample :
    ma200 [10] = [some 10] ∧ (0 : ℕ) < 200 - 1 := by
  constructor
  · norm_num [ma200, rollingMean, List.range_succ]
  · decide

/-- Claim C5, amended: with `min_periods = 1` the moving average is defined at
every position of the series: at positions with at least `w` trailing
observations it is the mean of the trailing `w` closes (dividing by `w`), and
at earlier positions it is the partial mean of the `i + 1` closes available so
far (dividing by `i + 1`), never missing. -/
theorem c5_sma_defined_everywhere (w : ℕ) (xs : List ℚ) (i : ℕ) (hw : 1 ≤ w)
    (hi : i < xs.length) :
    ∃ q, (rollingMean w 1 xs)[i]? = some (some q) ∧
      (w ≤ i + 1 → q = ((xs.take (i + 1)).drop (i + 1 - w)).sum / (w : ℚ)) ∧
      (i + 1 < w → q = (xs.take (i + 1)).sum / ((i : ℚ) + 1)) := by
  have ht : (xs.take (i + 1)).length = i + 1 := by
    rw [List.length_take]
    omega
  have hlen1 : 1 ≤ ((xs.take (i + 1)).drop (i + 1 - w)).length := by
    rw [List.length_drop, ht]
    omega
  refine ⟨((xs.take (i + 1)).drop (i + 1 - w)).sum /
      ((((xs.take (i + 1)).drop (i + 1 - w)).length : ℕ) : ℚ), ?_, ?_, ?_⟩
  · unfold rollingMean
    rw [List.getElem?_map, List.getElem?_range hi]
    simp only [Option.map_some', if_pos hlen1]
  · intro h
    have hl : ((xs.take (i + 1)).drop (i + 1 - w)).length = w := by
      rw [List.length_drop, ht]
      omega
    rw [hl]
  · intro h
    have h0 : i + 1 - w = 0 := by omega
    have hl : ((xs.take (i + 1)).drop (i + 1 - w)).length = i + 1 := by
      rw [List.length_drop, ht]
      omega
    rw [hl, h0, List.drop_zero]
    norm_cast

/-- Witness for `c5_sma_defined_everywhere` at `w = 200`, a two-element series
and position 1. -/
theorem c5_witness :
    ∃ q, (rollingMean 200 1 [(10 : ℚ), 20])[1]? = some (some q) ∧
      (200 ≤ 1 + 1 →
        q = ((([(10 : ℚ), 20]).take (1 + 1)).drop (1 + 1 - 200)).sum / ((200 : ℕ) : ℚ)) ∧
      (1 + 1 < 200 → q = (([(10 : ℚ), 20]).take (1 + 1)).sum / (((1 : ℕ) : ℚ) + 1)) :=
  c5_sma_defined_everywhere 200 [10, 20] 1 (by decide) (by decide)

/-- Claim C6, counterexample: a window series with one instrument tripling over
the 1W window yields the non-missing rating value 200, outside `[0, 99]` —
the code's "ratings" are unclamped mean percentage changes, not percentiles. -/
theorem c6_counterexample :
    rsRatingWindow 5 [[1], [1], [1], [1], [3]] = some [0, 0, 0, 0, 200] ∧
      ¬ ((200 : ℚ) ≤ 99) := by
  constructor
  · norm_num [rsRatingWindow, relSeries, rowMean]
  · norm_num

/-- Claim C6, amended: the non-missing rating values are not confined to
`[0, 99]`.  When every close is positive they are bounded below by −100
(each is a mean of relative changes, each change exceeding −100), but they
have no upper bound at 99: values above 99 occur. -/
theorem c6_rating_range_amended :
    (∀ (days : ℕ) (rows : List (List ℚ)) (ys : List ℚ),
        (∀ r ∈ rows, r ≠ [] ∧ ∀ x ∈ r, 0 < x) →
        rsRatingWindow days rows = some ys → ∀ y ∈ ys, -100 < y) ∧
      (∃ days rows ys, rsRatingWindow days rows = some ys ∧ ∃ y ∈ ys, 99 < y) := by
  constructor
  · intro days rows ys hpos hsome y hy
    unfold rsRatingWindow at hsome
    split at hsome
    case isFalse => exact absurd hsome (by simp)
    case isTrue hle =>
    have hys : ((relSeries (rows.drop (rows.length - days))).map rowMean) = ys :=
      Option.some.inj hsome
    rw [← hys] at hy
    rcases List.mem_map.mp hy with ⟨z, hz, hzy⟩
    rcases hw : rows.drop (rows.length - days) with _ | ⟨r0, rest⟩
    · rw [hw] at hz
      simp [relSeries] at hz
    · rw [hw] at hz
      unfold relSeries at hz
      rcases List.mem_map.mp hz with ⟨r, hr, hrz⟩
      have hrmem : r ∈ rows := List.mem_of_mem_drop (hw ▸ hr)
      have hr0mem : r0 ∈ rows := List.mem_of_mem_drop (hw ▸ (by simp : r0 ∈ r0 :: rest))
      have hrpos := hpos r hrmem
      have hr0pos := hpos r0 hr0mem
      have hallz : ∀ v ∈ z, -100 < v := by
        intro v hv
        rw [← hrz] at hv
        rcases List.mem_map.mp hv with ⟨p, hp, hpv⟩
        rcases List.of_mem_zip hp with ⟨hc, hc0⟩
        have h1 : 0 < p.1 := hrpos.2 p.1 hc
        have h2 : 0 < p.2 := hr0pos.2 p.2 hc0
        have hdiv : 0 < p.1 / p.2 := div_pos h1 h2
        rw [← hpv]
        nlinarith
      have hzlen : 0 < z.length := by
        rw [← hrz, List.length_map, List.length_zip]
        have h1 : 0 < r.length := List.length_pos.mpr hrpos.1
        have h2 : 0 < r0.length := List.length_pos.mpr hr0pos.1
        omega
      have hzne : z ≠ [] := List.ne_nil_of_length_pos hzlen
      rw [← hzy]
      unfold rowMean
      rw [lt_div_iff₀ (by exact_mod_cast hzlen)]
      calc (-100 : ℚ) * z.length = -100 * z.length := rfl
        _ < z.sum := mul_length_lt_sum z (-100) hzne hallz
  · refine ⟨5, [[1], [1], [1], [1], [3]], [0, 0, 0, 0, 200], ?_, 200, ?_, ?_⟩
    · norm_num [rsRatingWindow, relSeries, rowMean]
    · simp
    · norm_num

/-- Witness for the universally quantified half of `c6_rating_range_amended`:
applied at a one-row, one-instrument table whose rating list is `[0]`. -/
theorem c6_witness : (-100 : ℚ) < 0 :=
  c6_rating_range_amended.1 1 [[1]] [0]
    (by norm_num)
    (by norm_num [rsRatingWindow, relSeries, rowMean])
    0 (by simp)

/-- Claim C9, confirmed: `apply_filters` with an empty criterion dict returns
every row unchanged in its original order (for any table with at least one
column; a zero-column frame is degenerate — pandas's `.empty` short-circuit
then returns a fresh empty frame). -/
theorem c9_empty_filter_identity (t : Table) (h : t.cols ≠ []) :
    (apply_filters t []).rows = t.rows := by
  unfold apply_filters
  by_cases hr : t.rows.isEmpty
  · have hnil : t.rows = [] := List.isEmpty_iff.mp hr
    simp [hr, hnil]
  · have hc : t.cols.isEmpty = false := by
      rcases hcs : t.cols with _ | _
      · exact absurd hcs h
      · rfl
    have hr2 : t.rows.isEmpty = false := by simpa using hr
    simp only [hr2, hc, Bool.or_self, Bool.false_eq_true, if_false]
    split <;> rfl

/-- Witness for `c9_empty_filter_identity` at a concrete one-row table. -/
theorem c9_witness :
    (apply_filters mainRankingSample []).rows = mainRankingSample.rows :=
  c9_empty_filter_identity mainRankingSample (by decide)

/-- Claim C10, confirmed: `apply_filters` returns its input unchanged whenever
any of the `required_columns` (`Above 200 MA`, ...) is absent; in particular
every table whose columns omit `Above 200 MA` — as any ranking selection of
`main` would, its moving-average columns being named `MA_200` / `MA_50` in the
source text (lines 60-61, 146-157), never `Above 200 MA` — is untouched by
every filter configuration, and no filter ever removes a row.  (`main`'s frame
construction itself cannot be followed further: the multi-column assignment of
line 60 raises inside `calculate_metrics`'s `try`, so `main` returns at
line 131 and in practice no ranking table reaches `apply_filters` at all; the
theorem covers every table that could.) -/
theorem c10_filters_noop_without_required_columns :
    (∀ (t : Table) (fs : List (String × String × FVal)),
        t.rows ≠ [] → t.cols ≠ [] →
        requiredColumns.all (fun c => t.cols.contains c) = false →
        apply_filters t fs = t) ∧
      ∀ (t : Table) (fs : List (String × String × FVal)),
        t.cols.contains ("Above 200 MA") = false → t.rows ≠ [] → t.cols ≠ [] →
        apply_filters t fs = t := by
  have hpart1 : ∀ (t : Table) (fs : List (String × String × FVal)),
      t.rows ≠ [] → t.cols ≠ [] →
      requiredColumns.all (fun c => t.cols.contains c) = false →
      apply_filters t fs = t := by
    intro t fs hr hc hreq
    unfold apply_filters
    have hr2 : t.rows.isEmpty = false := by simpa [List.isEmpty_iff] using hr
    have hc2 : t.cols.isEmpty = false := by simpa [List.isEmpty_iff] using hc
    rw [if_neg (by rw [hr2, hc2]; simp), if_neg (by rw [hreq]; simp)]
  refine ⟨hpart1, ?_⟩
  intro t fs h200 hr hc
  refine hpart1 t fs hr hc ?_
  simp only [requiredColumns, List.all_cons, h200, Bool.false_and]

/-- Witness for `c10_filters_noop_without_required_columns`, applied to a
one-row table with main's intended ranking column names and the exact filter
configuration `main` builds (lines 150-154). -/
theorem c10_witness :
    apply_filters mainRankingSample
      [(("MA_200"), (">"), FVal.fb true), (("MA_50"), (">"), FVal.fb true),
       (("EMA Trend"), ("=="), FVal.fs ("Show All"))] = mainRankingSample :=
  c10_filters_noop_without_required_columns.2 mainRankingSample _
    (by decide) (by decide) (by decide)

/-- Claim C7, counterexample: a filter configuration whose criterion references
the unknown field `Bogus` (with a supported comparator) does not fail: on a
table that has all `required_columns`, `apply_filters` catches the lookup
error, skips the criterion, and returns every row — no `ConfigError`, no
fatality, and the bad criterion is treated as passing. -/
theorem c7_counterexample :
    apply_filters fullRankingSample [(("Bogus"), (">"), FVal.fb true)] =
      fullRankingSample := by
  decide

/-- Claim C7, amended: there is no up-front configuration validation and no
`ConfigError`; a criterion referencing a field that is not a column is caught
per-criterion inside the loop's `try/except`, reported, and skipped, leaving
the accumulated rows unchanged, and the run continues (an unsupported
comparator likewise leaves the rows unchanged). -/
theorem c7_unknown_criterion_skipped_amended :
    (∀ (orig cur : Table) (f : String × String × FVal),
        cur.cols.contains f.1 = false → applyCriterion orig cur f = cur) ∧
      ∀ (t : Table) (fs : List (String × String × FVal)),
        t.rows ≠ [] → t.cols ≠ [] →
        requiredColumns.all (fun c => t.cols.contains c) = true →
        (∀ f ∈ fs, t.cols.contains f.1 = false) →
        apply_filters t fs = t := by
  refine ⟨applyCriterion_unknown_col, ?_⟩
  intro t fs hr hc hreq hall
  unfold apply_filters
  have hr2 : t.rows.isEmpty = false := by simpa [List.isEmpty_iff] using hr
  have hc2 : t.cols.isEmpty = false := by simpa [List.isEmpty_iff] using hc
  rw [if_neg (by rw [hr2, hc2]; simp), if_pos hreq]
  exact foldl_applyCriterion_unknown t fs hall

/-- Witness for `c7_unknown_criterion_skipped_amended` on a two-row table and a
configuration with one unknown numeric field and the `EMA Trend` criterion
(whose column is also absent). -/
theorem c7_witness :
    apply_filters fullRankingSample2
      [(("Nope"), ("<"), FVal.fs ("x")),
       (("EMA Trend"), ("=="), FVal.fs ("Show All"))] = fullRankingSample2 :=
  c7_unknown_criterion_skipped_amended.2 fullRankingSample2 _
    (by decide) (by decide) (by decide) (by decide)

/-- Claim C1, counterexample: the ranking-table preparation of `main`
(lines 146-147) replaces a missing (`NaN`) `MA_200` value by the boolean
`False` — the missing sentinel does not survive — and turns the non-missing
`MA_50` moving-average price 430 into `True`. -/
theorem c1_counterexample :
    prepRanking rankingWithMissing =
      Table.mk [("MA_200"), ("MA_50"), ("12M"), ("3M"), ("1M"), ("1W")]
        [Row.mk 0 [(("MA_200"), Cell.bool false), (("MA_50"), Cell.bool true),
          (("12M"), Cell.nan), (("3M"), Cell.num 5), (("1M"), Cell.num 2),
          (("1W"), Cell.num 1)]] := by
  decide

/-- Claim C1, amended: inside `calculate_metrics`, a window with insufficient
observations yields the all-missing series (`none`) — never an error, a zero
or a false; but `main`'s ranking-table stage then replaces missing values in
the `MA_200` / `MA_50` columns with `False` via `fillna(False)`, so the
missing sentinel does not propagate into the boolean MA columns. -/
theorem c1_missing_handling_amended :
    (∀ (label : String) (days : ℕ) (rows : List (List ℚ)),
        (label, days) ∈ LOOKBACK_PERIODS → rows.length < days →
        rsRatingWindow days rows = none) ∧
      maToBool Cell.nan = Cell.bool false := by
  constructor
  · intro label days rows _ hlt
    unfold rsRatingWindow
    rw [if_neg (by omega)]
  · rfl

/-- Witness for `c1_missing_handling_amended` at the 1W window and a one-row
close table. -/
theorem c1_witness : rsRatingWindow 5 [[1]] = none :=
  c1_missing_handling_amended.1 ("1W") 5 [[1]] (by decide) (by decide)

/-- Claim C2, counterexample: two instruments with equal (non-missing)
performance.  The claim's formula (fractional average rank, `(rank / n) × 99`
rounded to 2 decimals) gives both instruments the rating 74.25 = 297/4; the
code's window column instead holds 0 everywhere — `rankdata` is imported but
never used, and no per-instrument percentile is ever computed. -/
theorem c2_counterexample :
    rsRatingSpecC2 [0, 0] = [297 / 4, 297 / 4] ∧
      rsRatingWindow 5 [[1, 1], [1, 1], [1, 1], [1, 1], [1, 1]] =
        some [0, 0, 0, 0, 0] ∧
      (0 : ℚ) ≠ 297 / 4 := by
  refine ⟨?_, ?_, by norm_num⟩
  · norm_num [rsRatingSpecC2, round2, fracRank, countLt, countEq]
  · norm_num [rsRatingWindow, relSeries, rowMean]

/-- Claim C2, amended: the per-window "RS rating" of the code is a single
per-date series — the cross-instrument mean of the relative performance since
the window start — not a per-instrument `(rank / n) × 99` percentile; in
particular its first entry is 0 whenever the window-start closes are nonzero
(every close is compared against itself there). -/
theorem c2_rating_is_mean_not_percentile (days : ℕ) (rows : List (List ℚ))
    (h1 : 1 ≤ days) (h2 : days ≤ rows.length)
    (h0 : ∀ x ∈ (rows.drop (rows.length - days)).headD [], x ≠ 0) :
    ∃ ys, rsRatingWindow days rows = some ys ∧ ys.head? = some 0 := by
  have hlen : (rows.drop (rows.length - days)).length = days := by
    rw [List.length_drop]
    omega
  have hne : rows.drop (rows.length - days) ≠ [] := by
    intro hnil
    rw [hnil] at hlen
    simp at hlen
    omega
  rcases List.exists_cons_of_ne_nil hne with ⟨r0, rest, hw⟩
  refine ⟨(relSeries (rows.drop (rows.length - days))).map rowMean, ?_, ?_⟩
  · unfold rsRatingWindow
    rw [if_pos h2]
  rw [hw] at h0 ⊢
  simp only [List.headD_cons] at h0
  unfold relSeries
  simp only [List.map_cons, List.head?_cons, Option.some.injEq]
  unfold rowMean
  have hsum : ((r0.zip r0).map (fun p => (p.1 / p.2 - 1) * 100)).sum = 0 := by
    apply List.sum_eq_zero
    intro v hv
    rcases List.mem_map.mp hv with ⟨p, hp, hpv⟩
    rw [zip_self_eq_map] at hp
    rcases List.mem_map.mp hp with ⟨x, hx, hxp⟩
    rw [← hpv, ← hxp]
    simp [div_self (h0 x hx)]
  rw [hsum, zero_div]

/-- Witness for `c2_rating_is_mean_not_percentile` at the 1W window on a
five-row single-instrument table. -/
theorem c2_witness :
    ∃ ys, rsRatingWindow 5 [[2], [2], [2], [2], [4]] = some ys ∧
      ys.head? = some 0 :=
  c2_rating_is_mean_not_percentile 5 [[2], [2], [2], [2], [4]]
    (by decide) (by decide) (by decide)

/-- For a nonempty single-instrument window, the code's per-date series is the
elementwise relative performance against the window's first close. -/
theorem relSeries_map_singleton (d : List ℚ) (y0 : ℚ) (rest : List ℚ)
    (hd : d = y0 :: rest) :
    (relSeries (d.map (fun x => [x]))).map rowMean =
      d.map (fun x => (x / y0 - 1) * 100) := by
  subst hd
  have h1 : (y0 :: rest).map (fun x => [x]) = [y0] :: rest.map (fun x => [x]) :=
    List.map_cons ..
  rw [h1]
  show (([y0] :: rest.map (fun x => [x])).map
      (fun r => (r.zip [y0]).map (fun p => (p.1 / p.2 - 1) * 100))).map rowMean = _
  rw [← h1, List.map_map, List.map_map]
  congr 1
  funext x
  simp [Function.comp, rowMean]

/-- Claim C3, counterexample: a single instrument with 6 observations
(`periods + 1` for the 1W window, `periods` = 5).  The claim's formula —
baseline exactly 5 observations before the last close — gives
`(6 − 1) / 1 × 100 = 500`; the code's window series for that instrument ends
at 200, because its baseline is the first row of the trailing 5-row slice,
only 4 observations before the last. -/
theorem c3_counterexample :
    rsRatingWindow 5 [[1], [2], [3], [4], [5], [6]] =
        some [0, 50, 100, 150, 200] ∧
      ((6 : ℚ) - 1) / 1 * 100 = 500 ∧ ¬ ((200 : ℚ) = 500) := by
  refine ⟨?_, by norm_num, by norm_num⟩
  norm_num [rsRatingWindow, relSeries, rowMean]

/-- Claim C3, amended: for a single instrument with at least `periods`
observations (not `periods + 1`), the code's window series has `periods`
entries and its latest entry equals
`(close_now − close_base) / close_base × 100` where `close_base` is the close
`periods − 1` positions before the last (the first observation of the trailing
`periods`-row slice), not `periods` positions before it. -/
theorem c3_performance_baseline (xs : List ℚ) (days : ℕ)
    (h1 : 1 ≤ days) (h2 : days ≤ xs.length)
    (h0 : xs.getD (xs.length - days) 0 ≠ 0) :
    ∃ ys, rsRatingWindow days (xs.map (fun x => [x])) = some ys ∧
      ys.length = days ∧
      ys.getD (days - 1) 0 =
        (xs.getD (xs.length - 1) 0 - xs.getD (xs.length - days) 0) /
          xs.getD (xs.length - days) 0 * 100 := by
  have hmlen : (xs.map (fun x => [x])).length = xs.length := List.length_map ..
  have hdrop : (xs.map (fun x => [x])).drop (xs.length - days) =
      (xs.drop (xs.length - days)).map (fun x => [x]) := (List.map_drop ..).symm
  have hdlen : (xs.drop (xs.length - days)).length = days := by
    rw [List.length_drop]
    omega
  have hdne : xs.drop (xs.length - days) ≠ [] := by
    intro hnil
    rw [hnil] at hdlen
    simp at hdlen
    omega
  rcases List.exists_cons_of_ne_nil hdne with ⟨y0, rest, hd⟩
  have hy0 : xs.getD (xs.length - days) 0 = y0 := by
    have h5 : xs[xs.length - days]? = some y0 := by
      rw [← List.head?_drop, hd, List.head?_cons]
    rw [List.getD_eq_getElem?_getD, h5]
    rfl
  refine ⟨(xs.drop (xs.length - days)).map (fun x => (x / y0 - 1) * 100),
    ?_, ?_, ?_⟩
  · unfold rsRatingWindow
    rw [if_pos (by rw [hmlen]; exact h2), hmlen, hdrop,
      relSeries_map_singleton (xs.drop (xs.length - days)) y0 rest hd]
  · rw [List.length_map, hdlen]
  · have hlt : xs.length - 1 < xs.length := by omega
    have hlast : xs.getD (xs.length - 1) 0 = xs[xs.length - 1] := by
      rw [List.getD_eq_getElem?_getD, List.getElem?_eq_getElem hlt]
      rfl
    rw [List.getD_eq_getElem?_getD, List.getElem?_map, List.getElem?_drop]
    have hidx : xs.length - days + (days - 1) = xs.length - 1 := by omega
    rw [hidx, List.getElem?_eq_getElem hlt]
    simp only [Option.map_some', Option.getD_some]
    rw [hy0, hlast, div_sub_one (hy0 ▸ h0)]

/-- Witness for `c3_performance_baseline` on the series 1..6 with the 1W
window. -/
theorem c3_witness :
    ∃ ys, rsRatingWindow 5 ([(1 : ℚ), 2, 3, 4, 5, 6].map (fun x => [x])) = some ys ∧
      ys.length = 5 ∧
      ys.getD (5 - 1) 0 =
        ([(1 : ℚ), 2, 3, 4, 5, 6].getD ([(1 : ℚ), 2, 3, 4, 5, 6].length - 1) 0 -
            [(1 : ℚ), 2, 3, 4, 5, 6].getD ([(1 : ℚ), 2, 3, 4, 5, 6].length - 5) 0) /
          [(1 : ℚ), 2, 3, 4, 5, 6].getD ([(1 : ℚ), 2, 3, 4, 5, 6].length - 5) 0 * 100 :=
  c3_performance_baseline [1, 2, 3, 4, 5, 6] 5 (by decide) (by decide) (by decide)

/-- Claim C8, counterexample: two rows tie on the `12M` sort key, listed with
the larger date label first.  `sort_values(by := "12M", ascending := False)`
keeps them in input order (larger label before smaller), so tied rows are not
ordered ascending by any row identifier — indeed the ranking table's rows are
dates and carry no symbol field at all, and the source passes no tie-break
key. -/
theorem c8_counterexample :
    sortBy12MDesc tiedSample = tiedSample ∧
      tiedSample.rows.map Row.idx = [5, 3] ∧ ¬ ((5 : ℕ) ≤ 3) := by
  refine ⟨by decide, by decide, by decide⟩

/-- Claim C8, amended: the displayed table is ordered by the `12M` column
descending — a permutation of the input rows, splitting into a
non-increasingly sorted prefix of rows with a present sort key followed by the
rows whose sort key is missing — with no symbol tie-break (rows are dates and
have no symbol); tied rows keep input order under the modelled stable sort
kind, while the source's default quicksort leaves tie order unspecified.
Also, the CSV download of line 174 uses the unsorted frame. -/
theorem c8_sort_descending_missing_last (t : Table) :
    (sortBy12MDesc t).cols = t.cols ∧
      List.Perm (sortBy12MDesc t).rows t.rows ∧
      ∃ a b, (sortBy12MDesc t).rows = a ++ b ∧ List.Sorted rowGe a ∧
        (∀ r ∈ a, (key12M r).isSome) ∧ ∀ r ∈ b, key12M r = none := by
  refine ⟨rfl, ?_, ?_⟩
  · have h1 : List.Perm
        (List.insertionSort rowGe (t.rows.filter (fun r => (key12M r).isSome)))
        (t.rows.filter (fun r => (key12M r).isSome)) :=
      List.perm_insertionSort rowGe _
    exact (h1.append_right _).trans
      (List.filter_append_perm (fun r => (key12M r).isSome) t.rows)
  · refine ⟨List.insertionSort rowGe (t.rows.filter (fun r => (key12M r).isSome)),
      t.rows.filter (fun r => !(key12M r).isSome), rfl,
      List.sorted_insertionSort rowGe _, ?_, ?_⟩
    · intro r hr
      have hmem : r ∈ t.rows.filter (fun r => (key12M r).isSome) :=
        (List.perm_insertionSort rowGe _).subset hr
      exact (List.mem_filter.mp hmem).2
    · intro r hr
      have hmem := (List.mem_filter.mp hr).2
      rcases hk : key12M r with _ | q
      · rfl
      · rw [hk] at hmem
        simp at hmem
